import Mathlib

/-!
# PushToFolders — verification of the spec against `src/main.cpp`

A shallow embedding of the PushToFolders utility (single C++ source file).
The embedding models:

* paths as lists of name components (`FsPath`), with `filename` / `stem` /
  `extension` following the `std::filesystem::path` decomposition rules;
* the filesystem as a finite map from paths to entry kinds (`FS`), with the
  operations the program uses (`exists`, `is_regular_file`, `is_directory`,
  `create_directories`, `rename`, directory enumeration);
* the log file as a list of structured lines (`LogLine`); timestamps and the
  platform-specific log-file location discovery are abstracted away (the spec
  declares both out of scope);
* console output as a list of printed lines.

Writes through the `Logger`'s stream are modelled as immediate appends to the
log file, and opening the log file is assumed to succeed (the source degrades
to console-only logging when the open fails; that failure mode is outside
every claim).  OS-level failures of the final rename (permissions,
cross-volume moves) are not modelled: `FS.rename` succeeds exactly when its
preconditions hold.  A directory-enumeration failure is modelled by the
`scanErr` flag: as in C++, a `directory_iterator` constructed with an error
equals the end iterator, so the enumeration is empty.
-/

set_option autoImplicit false

namespace PushToFolders

/-- ASCII lower-casing of one character, as `std::tolower` in the C locale
does for `unsigned char` values (`src/main.cpp:127-136`, POSIX branch). -/
def lowerChar (c : Char) : Char :=
  if 'A' ≤ c ∧ c ≤ 'Z' then Char.ofNat (c.toNat + 32) else c

/-- `toLowerCopy` (`src/main.cpp:127-136`): lower-case every character of a
string. -/
def toLowerCopy (s : String) : String :=
  String.mk (s.toList.map lowerChar)

/-- Index of the last `'.'` in a character list (accumulator-passing). -/
def lastDotPosAux : List Char → Nat → Option Nat → Option Nat
  | [], _, acc => acc
  | c :: rest, i, acc => lastDotPosAux rest (i + 1) (if c = '.' then some i else acc)

/-- Index of the last `'.'` in a character list, if any. -/
def lastDotPos (l : List Char) : Option Nat :=
  lastDotPosAux l 0 none

/-- `std::filesystem::path::extension()` on a filename: the suffix starting at
the last period, except that the filenames `.` and `..` and a leading period
(a dotfile such as `.png`) yield no extension. -/
def extensionOf (f : String) : String :=
  if f = "." ∨ f = ".." then ""
  else
    match lastDotPos f.toList with
    | none => ""
    | some 0 => ""
    | some (k + 1) => String.mk (f.toList.drop (k + 1))

/-- `std::filesystem::path::stem()` on a filename: the filename with its
extension (as computed by `extensionOf`) removed. -/
def stemOf (f : String) : String :=
  if f = "." ∨ f = ".." then f
  else
    match lastDotPos f.toList with
    | none => f
    | some 0 => f
    | some (k + 1) => String.mk (f.toList.take (k + 1))

/-- A filesystem path, as its list of name components. -/
abbrev FsPath := List String

/-- `path::filename()`: the last component (empty for the empty path). -/
def filenameOf (p : FsPath) : String :=
  p.getLast?.getD ""

/-- `path::parent_path()`: the path without its last component. -/
def parentPathOf (p : FsPath) : FsPath :=
  p.dropLast

/-- Rendering of a path for console / log messages (`u8string`), with `/` as
separator. -/
def pathStr (p : FsPath) : String :=
  String.intercalate "/" p

/-- Splitting a character list on `'/'`, accumulating the current (reversed)
component. -/
def splitSlashAux : List Char → List Char → List String
  | [], acc => [String.mk acc.reverse]
  | c :: rest, acc =>
    if c = '/' then String.mk acc.reverse :: splitSlashAux rest []
    else splitSlashAux rest (c :: acc)

/-- `fs::path(arg)` applied to a command-line argument: split on the
separator. -/
def pathOfString (s : String) : FsPath :=
  splitSlashAux s.toList []

/-- `kExtensions` (`src/main.cpp:139-141`): the fixed allow-list of
extensions. -/
def kExtensions : List String :=
  [".jpg", ".jpeg", ".png", ".bmp", ".webp"]

/-- `isImageFile` (`src/main.cpp:138-145`): lower-case the path's extension
and test membership in `kExtensions`. -/
def isImageFile (path : FsPath) : Bool :=
  kExtensions.contains (toLowerCopy (extensionOf (filenameOf path)))

/-- The Classifier as worded by the spec (§4.1): lower-cases the path's
extension and tests membership of the `ExtensionSet`
`{.jpg, .jpeg, .png, .bmp, .webp}`.  Written from the spec's words, to be
compared with `isImageFile` (which is translated from the source). -/
def isSupported (path : FsPath) : Bool :=
  toLowerCopy (extensionOf (filenameOf path)) ∈
    [".jpg", ".jpeg", ".png", ".bmp", ".webp"]

/-- The kind of a filesystem entry: regular file or directory. -/
inductive EntryKind
  | file
  | dir
deriving DecidableEq

/-- The filesystem, as a finite map from paths to entry kinds (earlier
entries shadow later ones; insertion happens only at absent keys). -/
structure FS where
  entries : List (FsPath × EntryKind)
deriving DecidableEq

/-- Look up the entry at a path. -/
def FS.lookup (fs : FS) (p : FsPath) : Option EntryKind :=
  (fs.entries.find? fun e => decide (e.1 = p)).map fun e => e.2

/-- `fs::exists`. -/
def FS.pathExists (fs : FS) (p : FsPath) : Bool :=
  (fs.lookup p).isSome

/-- `fs::is_regular_file`. -/
def FS.isRegularFile (fs : FS) (p : FsPath) : Bool :=
  decide (fs.lookup p = some EntryKind.file)

/-- `fs::is_directory`. -/
def FS.isDirectory (fs : FS) (p : FsPath) : Bool :=
  decide (fs.lookup p = some EntryKind.dir)

/-- Create an entry at a (previously absent) path. -/
def FS.insert (fs : FS) (p : FsPath) (k : EntryKind) : FS :=
  ⟨(p, k) :: fs.entries⟩

/-- Remove the entry at a path. -/
def FS.erase (fs : FS) (p : FsPath) : FS :=
  ⟨fs.entries.filter fun e => decide (¬ e.1 = p)⟩

/-- `fs::rename(src, dst)` in the situation the Mover establishes: moving a
regular file to an unoccupied destination.  Succeeds exactly then; OS-specific
failure modes (permissions, cross-volume moves) are not modelled. -/
def FS.rename (fs : FS) (src dst : FsPath) : Bool × FS :=
  if fs.lookup src = some EntryKind.file ∧ fs.lookup dst = none then
    (true, (fs.erase src).insert dst EntryKind.file)
  else
    (false, fs)

/-- All non-empty initial segments of a path, shortest first: the chain of
directories `fs::create_directories` walks. -/
def ancestorsOf : FsPath → List FsPath
  | [] => []
  | c :: rest => [c] :: (ancestorsOf rest).map fun q => c :: q

/-- The walk of `fs::create_directories`: create each missing segment in
order; fail (leaving the segments created so far) on a segment that exists as
a non-directory. -/
def createDirsAux : FS → List FsPath → Bool × FS
  | fs, [] => (true, fs)
  | fs, q :: rest =>
    match fs.lookup q with
    | some EntryKind.dir => createDirsAux fs rest
    | some EntryKind.file => (false, fs)
    | none => createDirsAux (fs.insert q EntryKind.dir) rest

/-- `fs::create_directories`. -/
def FS.createDirectories (fs : FS) (p : FsPath) : Bool × FS :=
  createDirsAux fs (ancestorsOf p)

/-- The immediate entries of a directory, as `fs::directory_iterator`
enumerates them (no recursion): every recorded path directly below `dir`. -/
def FS.childrenOf (fs : FS) (dir : FsPath) : List FsPath :=
  (fs.entries.map fun e => e.1).filter fun p =>
    decide (p.dropLast = dir ∧ p.length = dir.length + 1)

/-- Severity of a log entry. -/
inductive Severity
  | info
  | error
deriving DecidableEq

/-- One line of the log file: either the run-start marker the `Logger`
constructor writes (`src/main.cpp:200-208`), or a timestamped entry
(timestamps abstracted away). -/
inductive LogLine
  | runStart
  | entry (sev : Severity) (msg : String) (target : Option FsPath)
deriving DecidableEq

/-- Rendering of one log line (timestamps abstracted). -/
def renderLogLine : LogLine → String
  | LogLine.runStart => "--- Run started ---"
  | LogLine.entry Severity.info m none => "INFO: " ++ m
  | LogLine.entry Severity.info m (some t) => "INFO: " ++ m ++ " | Target: " ++ pathStr t
  | LogLine.entry Severity.error m none => "ERROR: " ++ m
  | LogLine.entry Severity.error m (some t) => "ERROR: " ++ m ++ " | Target: " ++ pathStr t

/-- Rendering of the whole log file. -/
def renderLog (ls : List LogLine) : String :=
  String.join (ls.map fun l => renderLogLine l ++ "\n")

/-- The observable state during one invocation: the filesystem, the log file
(the `Logger`'s stream writes are modelled as immediate appends), and the
console output. -/
structure Sys where
  fs : FS
  log : List LogLine
  out : List String
deriving DecidableEq

/-- `Logger::logError` (`src/main.cpp:210-219`). -/
def Sys.logError (st : Sys) (target : FsPath) (msg : String) : Sys :=
  { st with log := st.log ++ [LogLine.entry Severity.error msg (some target)] }

/-- `Logger::logInfo` (`src/main.cpp:221-226`). -/
def Sys.logInfo (st : Sys) (msg : String) : Sys :=
  { st with log := st.log ++ [LogLine.entry Severity.info msg none] }

/-- One line printed to the console (`std::cout` / `std::cerr`). -/
def Sys.print (st : Sys) (line : String) : Sys :=
  { st with out := st.out ++ [line] }

/-- The sibling destination folder of a file
(`src/main.cpp:298`): `parent_path / stem`. -/
def destFolderOf (filePath : FsPath) : FsPath :=
  parentPathOf filePath ++ [stemOf (filenameOf filePath)]

/-- The destination path of a file (`src/main.cpp:303`):
`destinationFolder / filename`. -/
def destFileOf (filePath : FsPath) : FsPath :=
  destFolderOf filePath ++ [filenameOf filePath]

/-- `ensureDirectory` (`src/main.cpp:248-277`, POSIX branch): succeed if the
folder already exists as a directory, fail if a non-directory occupies its
name, otherwise create it (and missing ancestors). -/
def ensureDirectory (st : Sys) (dir : FsPath) : Bool × Sys :=
  if st.fs.pathExists dir then
    if !(st.fs.isDirectory dir) then
      (false, (st.logError dir "A non-directory with the desired folder name already exists.").print
        ("Cannot create folder " ++ pathStr dir ++ " because a file exists with that name."))
    else
      (true, st)
  else
    match st.fs.createDirectories dir with
    | (true, fs2) => (true, { st with fs := fs2 })
    | (false, fs2) =>
      (false, ({ st with fs := fs2 }.logError dir "Failed to create folder: a segment exists and is not a directory.").print
        ("Failed to create folder " ++ pathStr dir))

/-- `moveFileToFolder` (`src/main.cpp:279-332`, POSIX branch): the Mover. -/
def moveFileToFolder (st : Sys) (filePath : FsPath) : Bool × Sys :=
  if !(st.fs.pathExists filePath) then
    (false, (st.logError filePath "File does not exist.").print
      ("File not found: " ++ pathStr filePath))
  else if !(st.fs.isRegularFile filePath) then
    (false, (st.logError filePath "Path is not a regular file.").print
      ("Not a file: " ++ pathStr filePath))
  else if !(isImageFile filePath) then
    (false, st.logInfo ("Skipping non-image file: " ++ pathStr filePath))
  else
    match ensureDirectory st (destFolderOf filePath) with
    | (false, st2) => (false, st2)
    | (true, st2) =>
      if st2.fs.pathExists (destFileOf filePath) then
        (false, (st2.logError (destFileOf filePath) "Destination file already exists.").print
          ("Destination already exists: " ++ pathStr (destFileOf filePath)))
      else
        match st2.fs.rename filePath (destFileOf filePath) with
        | (false, fs3) =>
          (false, ({ st2 with fs := fs3 }.logError (destFileOf filePath) "Failed to move file: OS error.").print
            ("Failed to move " ++ pathStr filePath))
        | (true, fs3) =>
          (true, ({ st2 with fs := fs3 }.logInfo
              ("Moved " ++ pathStr filePath ++ " to " ++ pathStr (destFolderOf filePath))).print
            ("Moved " ++ filenameOf filePath ++ " into " ++ filenameOf (destFolderOf filePath)))

/-- The body of the scan loop of `processDirectory` (`src/main.cpp:343-359`).
The result is `(anyProcessed, state, earlyReturn)`.  `ec` is the error code of
the `directory_iterator` construction; as in the source, it is tested at the
top of each iteration (an error set at construction makes the enumeration
empty, so that test can never fire — see the C5 theorem). -/
def scanEntries (dirPath : FsPath) (ec : Bool) : Sys → Bool → List FsPath → Bool × Sys × Bool
  | st, anyProcessed, [] => (anyProcessed, st, false)
  | st, anyProcessed, e :: rest =>
    if ec then
      (false, (st.logError dirPath "Failed to scan directory: OS error.").print
        ("Failed to scan directory " ++ pathStr dirPath), true)
    else if !(st.fs.isRegularFile e) then
      scanEntries dirPath ec st anyProcessed rest
    else if isImageFile e then
      let r := moveFileToFolder st e
      scanEntries dirPath ec r.2 (anyProcessed || r.1) rest
    else
      scanEntries dirPath ec st anyProcessed rest

/-- `processDirectory` (`src/main.cpp:334-366`): the Scanner.  `scanErr`
states that the OS directory enumeration fails: the `directory_iterator`
constructor sets the error code and yields the end iterator, i.e. an empty
enumeration. -/
def processDirectory (st : Sys) (directoryPath : FsPath) (scanErr : Bool) : Bool × Sys :=
  if !(st.fs.pathExists directoryPath) || !(st.fs.isDirectory directoryPath) then
    (false, (st.logError directoryPath "The supplied path is not a directory.").print
      ("The path is not a folder: " ++ pathStr directoryPath))
  else
    let entries := if scanErr then [] else st.fs.childrenOf directoryPath
    match scanEntries directoryPath scanErr st false entries with
    | (b, st2, true) => (b, st2)
    | (anyProcessed, st2, false) =>
      if !anyProcessed then
        (anyProcessed, st2.print ("No image files found in " ++ pathStr directoryPath))
      else
        (anyProcessed, st2)

/-- The loop of `processFiles` (`src/main.cpp:370-374`). -/
def filesLoop : Sys → Bool → List FsPath → Bool × Sys
  | st, anyProcessed, [] => (anyProcessed, st)
  | st, anyProcessed, f :: rest =>
    let r := moveFileToFolder st f
    filesLoop r.2 (anyProcessed || r.1) rest

/-- `processFiles` (`src/main.cpp:368-381`). -/
def processFiles (st : Sys) (files : List FsPath) : Bool × Sys :=
  match filesLoop st false files with
  | (anyProcessed, st2) =>
    if !anyProcessed then
      (anyProcessed, st2.print "No image files were processed.")
    else
      (anyProcessed, st2)

/-- `readFileContents` (`src/main.cpp:383-395`) applied to the log file: the
`Logger` constructor has already created the file, so the open succeeds and
the whole contents are returned.  (The `none` branch of the caller models the
open failing; with the file present it is unreachable.) -/
def readFileContents (log : List LogLine) : Option (List LogLine) :=
  some log

/-- `clearLogFile` (`src/main.cpp:397-400`): truncate the log file.  Opening
for truncation succeeds on the already-created file, so the result is
`true`. -/
def clearLogFile (_log : List LogLine) : Bool × List LogLine :=
  (true, [])

/-- The log-file path.  Its platform-dependent discovery
(`detectLogFilePath`) is declared out of scope by the spec; only the name is
kept for the messages that display it. -/
def logPath : FsPath :=
  ["PushToFolders.log"]

/-- Construction of the `Logger` (`src/main.cpp:200-208`) at the start of
`runApplication`: open the log file for appending — creating it when absent —
and append the run-start marker line. -/
def initSys (fs : FS) (logFile : Option (List LogLine)) : Sys :=
  ⟨fs, logFile.getD [] ++ [LogLine.runStart], []⟩

/-- The tail of `runApplication` (`src/main.cpp:476-485`): explicit-file mode
over all arguments. -/
def runFileMode (st : Sys) (args : List String) : Nat × Sys :=
  match processFiles st (args.map pathOfString) with
  | (success, st2) =>
    (if success then 0 else 1,
      st2.print ("Finished processing files. Check the log for any errors: " ++ pathStr logPath))

/-- The usage banner (`printUsage`, condensed to one line). -/
def usageText : String :=
  "PushToFolders - Organise images into same-named folders"

/-- `runApplication` (`src/main.cpp:430-486`): the Dispatcher.  Arguments are
the (already normalised) argument vector, the filesystem, the log file on
disk before the invocation (`none` when absent), and whether a directory
enumeration started in this invocation fails.  The result is the exit status
and the final state. -/
def runApplication (args : List String) (fs0 : FS) (logFile : Option (List LogLine))
    (scanErr : Bool) : Nat × Sys :=
  let st := initSys fs0 logFile
  match args with
  | [] => (1, st.print usageText)
  | [a] =>
    if a = "--show-log" ∨ a = "/showlog" then
      match readFileContents st.log with
      | none => (1, st.print ("No log file found at " ++ pathStr logPath))
      | some contents =>
        (0, st.print ("Log file: " ++ pathStr logPath ++ "\n" ++ renderLog contents))
    else if a = "--clear-log" ∨ a = "/clearlog" then
      match clearLogFile st.log with
      | (true, newLog) =>
        (0, ({ st with log := newLog }).print ("Log file cleared: " ++ pathStr logPath))
      | (false, newLog) =>
        (1, ({ st with log := newLog }).print ("Unable to clear log file at " ++ pathStr logPath))
    else
      let potentialDirectory := pathOfString a
      if st.fs.pathExists potentialDirectory && st.fs.isDirectory potentialDirectory then
        match processDirectory st potentialDirectory scanErr with
        | (success, st2) =>
          (if success then 0 else 1,
            (st2.print "Finished processing folder.").print
              ("Check the log for any errors: " ++ pathStr logPath))
      else
        runFileMode st [a]
  | _ => runFileMode st args

/-- The state persisted between invocations: the filesystem and the log file
on disk (`none` when the file does not exist). -/
structure World where
  fs : FS
  logFile : Option (List LogLine)
deriving DecidableEq

/-- One whole invocation of the program, world to world: at process exit the
`Logger` is destroyed and the log file holds everything written. -/
def step (args : List String) (w : World) (scanErr : Bool) : Nat × World :=
  let r := runApplication args w.fs w.logFile scanErr
  (r.1, ⟨r.2.fs, some r.2.log⟩)

/-- Per-item outcomes of moving a list of files in order, each file passed to
the Mover exactly once (the specification-side reading of the
`processFiles` loop). -/
def moveOutcomes (st : Sys) : List FsPath → List Bool × Sys
  | [] => ([], st)
  | f :: rest =>
    let r := moveFileToFolder st f
    let s := moveOutcomes r.2 rest
    (r.1 :: s.1, s.2)

/-! ## Basic lemmas about the embedding -/

theorem lastDotPosAux_no_dot (l : List Char) (hl : '.' ∉ l) :
    ∀ (i : Nat) (acc : Option Nat), lastDotPosAux l i acc = acc := by
  induction l with
  | nil => intro i acc; rfl
  | cons c rest ih =>
    intro i acc
    have hc : ¬ c = '.' := fun h => hl (h ▸ List.mem_cons_self c rest)
    have hrest : '.' ∉ rest := fun h => hl (List.mem_cons_of_mem c h)
    simp only [lastDotPosAux, if_neg (fun h => hc h)]
    exact ih hrest (i + 1) acc

/-- A filename that starts with a period and has no later period (a dotfile)
has no extension. -/
theorem extensionOf_dotfile (g : String) (cs : List Char)
    (hg : g.toList = '.' :: cs) (hnd : '.' ∉ cs) : extensionOf g = "" := by
  unfold extensionOf
  by_cases h1 : g = "." ∨ g = ".."
  · simp [h1]
  · rw [if_neg h1, hg]
    have : lastDotPos ('.' :: cs) = some 0 := by
      unfold lastDotPos
      simp only [lastDotPosAux, if_pos rfl]
      exact lastDotPosAux_no_dot cs hnd 1 (some 0)
    rw [this]

theorem FS.lookup_insert (fs : FS) (p q : FsPath) (k : EntryKind) :
    (fs.insert p k).lookup q = if q = p then some k else fs.lookup q := by
  by_cases h : q = p
  · subst h
    simp [FS.insert, FS.lookup, List.find?]
  · simp [FS.insert, FS.lookup, List.find?, Ne.symm h, h]

theorem createDirsAux_preserve (l : List FsPath) :
    ∀ (fs : FS) (p : FsPath) (k : EntryKind),
      fs.lookup p = some k → (createDirsAux fs l).2.lookup p = some k := by
  induction l with
  | nil => intro fs p k h; exact h
  | cons q rest ih =>
    intro fs p k h
    cases hq : fs.lookup q with
    | none =>
      simp only [createDirsAux, hq]
      apply ih
      rw [FS.lookup_insert]
      split
      · rename_i heq; rw [heq] at h; rw [h] at hq; cases hq
      · exact h
    | some k' =>
      cases k' with
      | dir => simpa only [createDirsAux, hq] using ih fs p k h
      | file => simpa only [createDirsAux, hq] using h

theorem createDirsAux_changes (l : List FsPath) :
    ∀ (fs : FS) (p : FsPath),
      (createDirsAux fs l).2.lookup p = fs.lookup p ∨
        (fs.lookup p = none ∧ (createDirsAux fs l).2.lookup p = some EntryKind.dir ∧ p ∈ l) := by
  induction l with
  | nil => intro fs p; exact Or.inl rfl
  | cons q rest ih =>
    intro fs p
    cases hq : fs.lookup q with
    | some k' =>
      cases k' with
      | file => simp only [createDirsAux, hq]; exact Or.inl trivial
      | dir =>
        simp only [createDirsAux, hq]
        rcases ih fs p with h | ⟨h1, h2, h3⟩
        · exact Or.inl h
        · exact Or.inr ⟨h1, h2, List.mem_cons_of_mem q h3⟩
    | none =>
      simp only [createDirsAux, hq]
      rcases ih (fs.insert q EntryKind.dir) p with h | ⟨h1, h2, h3⟩
      · rw [FS.lookup_insert] at h
        by_cases hpq : p = q
        · rw [if_pos hpq] at h
          exact Or.inr ⟨hpq ▸ hq, h, hpq ▸ List.mem_cons_self q rest⟩
        · rw [if_neg hpq] at h
          exact Or.inl h
      · rw [FS.lookup_insert] at h1
        by_cases hpq : p = q
        · rw [if_pos hpq] at h1; cases h1
        · rw [if_neg hpq] at h1
          exact Or.inr ⟨h1, h2, List.mem_cons_of_mem q h3⟩

theorem ancestorsOf_length_le (p : FsPath) :
    ∀ q ∈ ancestorsOf p, q.length ≤ p.length := by
  induction p with
  | nil => intro q hq; cases hq
  | cons c rest ih =>
    intro q hq
    rcases hq with _ | hq
    · simp
    · rename_i hq'
      rcases List.mem_map.mp hq' with ⟨q0, hq0, rfl⟩
      simpa using Nat.succ_le_succ (ih q0 hq0)

theorem destFile_not_mem_ancestors (f : FsPath) :
    destFileOf f ∉ ancestorsOf (destFolderOf f) := by
  intro h
  have hlen := ancestorsOf_length_le (destFolderOf f) _ h
  simp [destFileOf] at hlen

/-- Creating the destination-folder chain never touches the destination file
path (the destination file is strictly below the folder). -/
theorem createDirs_destFile_eq (fs : FS) (f : FsPath) :
    (createDirsAux fs (ancestorsOf (destFolderOf f))).2.lookup (destFileOf f) =
      fs.lookup (destFileOf f) := by
  rcases createDirsAux_changes (ancestorsOf (destFolderOf f)) fs (destFileOf f) with h | ⟨_, _, h3⟩
  · exact h
  · exact absurd h3 (destFile_not_mem_ancestors f)

/-! ## Branch characterizations of the Mover -/

theorem moveFileToFolder_notFound (st : Sys) (f : FsPath)
    (h : st.fs.lookup f = none) :
    moveFileToFolder st f =
      (false, (st.logError f "File does not exist.").print
        ("File not found: " ++ pathStr f)) := by
  simp [moveFileToFolder, FS.pathExists, h]

theorem moveFileToFolder_notFile (st : Sys) (f : FsPath)
    (h : st.fs.lookup f = some EntryKind.dir) :
    moveFileToFolder st f =
      (false, (st.logError f "Path is not a regular file.").print
        ("Not a file: " ++ pathStr f)) := by
  simp [moveFileToFolder, FS.pathExists, FS.isRegularFile, h]

theorem moveFileToFolder_skip (st : Sys) (f : FsPath)
    (hf : st.fs.lookup f = some EntryKind.file) (himg : isImageFile f = false) :
    moveFileToFolder st f =
      (false, st.logInfo ("Skipping non-image file: " ++ pathStr f)) := by
  simp [moveFileToFolder, FS.pathExists, FS.isRegularFile, hf, himg]

theorem moveFileToFolder_destIsFile (st : Sys) (f : FsPath)
    (hf : st.fs.lookup f = some EntryKind.file) (himg : isImageFile f = true)
    (hD : st.fs.lookup (destFolderOf f) = some EntryKind.file) :
    moveFileToFolder st f =
      (false, (st.logError (destFolderOf f)
          "A non-directory with the desired folder name already exists.").print
        ("Cannot create folder " ++ pathStr (destFolderOf f) ++
          " because a file exists with that name.")) := by
  simp [moveFileToFolder, ensureDirectory, FS.pathExists, FS.isRegularFile,
    FS.isDirectory, hf, himg, hD]

theorem moveFileToFolder_conflict (st : Sys) (f : FsPath)
    (hf : st.fs.lookup f = some EntryKind.file) (himg : isImageFile f = true)
    (hD : st.fs.lookup (destFolderOf f) = some EntryKind.dir)
    (k3 : EntryKind) (hdest : st.fs.lookup (destFileOf f) = some k3) :
    moveFileToFolder st f =
      (false, (st.logError (destFileOf f) "Destination file already exists.").print
        ("Destination already exists: " ++ pathStr (destFileOf f))) := by
  simp [moveFileToFolder, ensureDirectory, FS.pathExists, FS.isRegularFile,
    FS.isDirectory, hf, himg, hD, hdest]

theorem moveFileToFolder_success_dirExists (st : Sys) (f : FsPath)
    (hf : st.fs.lookup f = some EntryKind.file) (himg : isImageFile f = true)
    (hD : st.fs.lookup (destFolderOf f) = some EntryKind.dir)
    (hdest : st.fs.lookup (destFileOf f) = none) :
    moveFileToFolder st f =
      (true, ({ st with fs := (st.fs.erase f).insert (destFileOf f) EntryKind.file }.logInfo
          ("Moved " ++ pathStr f ++ " to " ++ pathStr (destFolderOf f))).print
        ("Moved " ++ filenameOf f ++ " into " ++ filenameOf (destFolderOf f))) := by
  simp [moveFileToFolder, ensureDirectory, FS.pathExists, FS.isRegularFile,
    FS.isDirectory, FS.rename, hf, himg, hD, hdest]

theorem moveFileToFolder_createFail (st : Sys) (f : FsPath) (fs2 : FS)
    (hf : st.fs.lookup f = some EntryKind.file) (himg : isImageFile f = true)
    (hD : st.fs.lookup (destFolderOf f) = none)
    (hcd : st.fs.createDirectories (destFolderOf f) = (false, fs2)) :
    moveFileToFolder st f =
      (false, ({ st with fs := fs2 }.logError (destFolderOf f)
          "Failed to create folder: a segment exists and is not a directory.").print
        ("Failed to create folder " ++ pathStr (destFolderOf f))) := by
  simp [moveFileToFolder, ensureDirectory, FS.pathExists, FS.isRegularFile,
    FS.isDirectory, hf, himg, hD, hcd]

theorem moveFileToFolder_conflict_created (st : Sys) (f : FsPath) (fs2 : FS)
    (hf : st.fs.lookup f = some EntryKind.file) (himg : isImageFile f = true)
    (hD : st.fs.lookup (destFolderOf f) = none)
    (hcd : st.fs.createDirectories (destFolderOf f) = (true, fs2))
    (k3 : EntryKind) (hdest : st.fs.lookup (destFileOf f) = some k3) :
    moveFileToFolder st f =
      (false, ({ st with fs := fs2 }.logError (destFileOf f)
          "Destination file already exists.").print
        ("Destination already exists: " ++ pathStr (destFileOf f))) := by
  have hd2 : fs2.lookup (destFileOf f) = some k3 := by
    have := createDirs_destFile_eq st.fs f
    rw [show (createDirsAux st.fs (ancestorsOf (destFolderOf f))).2 = fs2 from
      congrArg Prod.snd hcd] at this
    rw [this, hdest]
  simp [moveFileToFolder, ensureDirectory, FS.pathExists, FS.isRegularFile,
    FS.isDirectory, hf, himg, hD, hcd, hd2]

theorem moveFileToFolder_success_created (st : Sys) (f : FsPath) (fs2 : FS)
    (hf : st.fs.lookup f = some EntryKind.file) (himg : isImageFile f = true)
    (hD : st.fs.lookup (destFolderOf f) = none)
    (hcd : st.fs.createDirectories (destFolderOf f) = (true, fs2))
    (hdest : st.fs.lookup (destFileOf f) = none) :
    moveFileToFolder st f =
      (true, ({ st with fs := (fs2.erase f).insert (destFileOf f) EntryKind.file }.logInfo
          ("Moved " ++ pathStr f ++ " to " ++ pathStr (destFolderOf f))).print
        ("Moved " ++ filenameOf f ++ " into " ++ filenameOf (destFolderOf f))) := by
  have h2 : (createDirsAux st.fs (ancestorsOf (destFolderOf f))).2 = fs2 :=
    congrArg Prod.snd hcd
  have hd2 : fs2.lookup (destFileOf f) = none := by
    have := createDirs_destFile_eq st.fs f
    rw [h2] at this
    rw [this, hdest]
  have hf2 : fs2.lookup f = some EntryKind.file := by
    have := createDirsAux_preserve (ancestorsOf (destFolderOf f)) st.fs f EntryKind.file hf
    rwa [h2] at this
  simp [moveFileToFolder, ensureDirectory, FS.pathExists, FS.isRegularFile,
    FS.isDirectory, FS.rename, hf, himg, hD, hcd, hd2, hf2]

/-! ## Loop lemmas for the Scanner and explicit-file mode -/

/-- Entries that are not regular files, or whose extension is unsupported,
leave the scan state untouched: the Mover is never reached for them. -/
theorem scanEntries_skips (dp : FsPath) (es : List FsPath) :
    ∀ (st : Sys) (any : Bool),
      (∀ e ∈ es, st.fs.isRegularFile e = true → isImageFile e = false) →
      scanEntries dp false st any es = (any, st, false) := by
  induction es with
  | nil => intro st any _; rfl
  | cons e rest ih =>
    intro st any h
    have hrest : ∀ e' ∈ rest, st.fs.isRegularFile e' = true → isImageFile e' = false :=
      fun e' he' => h e' (List.mem_cons_of_mem e he')
    cases hr : st.fs.isRegularFile e with
    | false => simpa [scanEntries, hr] using ih st any hrest
    | true =>
      have hni : isImageFile e = false := h e (List.mem_cons_self e rest) hr
      simpa [scanEntries, hr, hni] using ih st any hrest

/-- With a successfully constructed enumeration (`ec = false`) the scan loop
never takes its early-return branch: a per-file failure cannot abort it. -/
theorem scanEntries_no_early (dp : FsPath) (es : List FsPath) :
    ∀ (st : Sys) (any : Bool), (scanEntries dp false st any es).2.2 = false := by
  induction es with
  | nil => intro st any; rfl
  | cons e rest ih =>
    intro st any
    cases hr : st.fs.isRegularFile e with
    | false => simpa [scanEntries, hr] using ih st any
    | true =>
      cases hi : isImageFile e with
      | false => simpa [scanEntries, hr, hi] using ih st any
      | true => simpa [scanEntries, hr, hi] using ih (moveFileToFolder st e).2 _

/-- With `ec = false` the scan loop is sequential composition: after any
portion of the enumeration — regardless of failures inside it — the remainder
is processed from the reached state. -/
theorem scanEntries_append (dp : FsPath) (es1 es2 : List FsPath) :
    ∀ (st : Sys) (any : Bool),
      scanEntries dp false st any (es1 ++ es2) =
        scanEntries dp false (scanEntries dp false st any es1).2.1
          (scanEntries dp false st any es1).1 es2 := by
  induction es1 with
  | nil => intro st any; rfl
  | cons e rest ih =>
    intro st any
    cases hr : st.fs.isRegularFile e with
    | false => simpa [scanEntries, hr] using ih st any
    | true =>
      cases hi : isImageFile e with
      | false => simpa [scanEntries, hr, hi] using ih st any
      | true => simpa [scanEntries, hr, hi] using ih (moveFileToFolder st e).2 _

/-- The explicit-file loop is sequential composition: a failure on one file
never aborts the rest of the list. -/
theorem filesLoop_append (files1 files2 : List FsPath) :
    ∀ (st : Sys) (any : Bool),
      filesLoop st any (files1 ++ files2) =
        filesLoop (filesLoop st any files1).2 (filesLoop st any files1).1 files2 := by
  induction files1 with
  | nil => intro st any; rfl
  | cons f rest ih =>
    intro st any
    simpa [filesLoop] using ih (moveFileToFolder st f).2 _

/-- Every file in the list yields exactly one Mover outcome. -/
theorem moveOutcomes_length (files : List FsPath) :
    ∀ st : Sys, (moveOutcomes st files).1.length = files.length := by
  induction files with
  | nil => intro st; rfl
  | cons f rest ih =>
    intro st
    simpa [moveOutcomes] using ih (moveFileToFolder st f).2

/-- The explicit-file loop computes the disjunction of the per-file outcomes
and the state reached by moving every file in order. -/
theorem filesLoop_eq_outcomes (files : List FsPath) :
    ∀ (st : Sys) (any : Bool),
      filesLoop st any files =
        (any || (moveOutcomes st files).1.any id, (moveOutcomes st files).2) := by
  induction files with
  | nil => intro st any; simp [filesLoop, moveOutcomes]
  | cons f rest ih =>
    intro st any
    simp [filesLoop, moveOutcomes, ih (moveFileToFolder st f).2, Bool.or_assoc]

/-! ## Concrete states used by witnesses and counterexamples -/

/-- A folder `pics` holding one supported image `cat.png`, empty log. -/
def picsSt : Sys :=
  ⟨⟨[(["pics"], EntryKind.dir), (["pics", "cat.png"], EntryKind.file)]⟩, [], []⟩

/-- A folder `d` holding exactly one regular file `a.txt`, whose extension is
unsupported; empty log. -/
def unsupportedSt : Sys :=
  ⟨⟨[(["d"], EntryKind.dir), (["d", "a.txt"], EntryKind.file)]⟩, [], []⟩

/-- A folder `pics` where `cat.png` was already organised:
`pics/cat/cat.png` exists alongside the loose `pics/cat.png`. -/
def conflictSt : Sys :=
  ⟨⟨[(["pics"], EntryKind.dir), (["pics", "cat.png"], EntryKind.file),
     (["pics", "cat"], EntryKind.dir), (["pics", "cat", "cat.png"], EntryKind.file)]⟩, [], []⟩

/-- A folder `d` holding one regular file literally named `.png`. -/
def dotfileSt : Sys :=
  ⟨⟨[(["d"], EntryKind.dir), (["d", ".png"], EntryKind.file)]⟩, [], []⟩

/-- A log file holding one old ERROR entry, as left by some earlier run. -/
def oldLog : List LogLine :=
  [LogLine.entry Severity.error "old failure" (some ["x", "y.png"])]

/-! ## C8 — the Classifier -/

/-- C8: the Classifier accepts a path exactly when the lower-cased form of
its extension is one of `.jpg`, `.jpeg`, `.png`, `.bmp`, `.webp` — so case
variations such as `.JPG` or `.WebP` are accepted — and rejects every other
extension.  (`isSupported` is the spec's §4.1 wording; `isImageFile` is the
source's `isImageFile`.  Being a pure `Bool`-valued function, the Classifier
has no side effects and no error outcome.) -/
theorem classifier_matches_spec :
    (∀ p : FsPath, isImageFile p = isSupported p) ∧
    isImageFile ["pics", "a.JPG"] = true ∧
    isImageFile ["pics", "b.WebP"] = true ∧
    isImageFile ["pics", "c.Png"] = true ∧
    isImageFile ["pics", "d.gif"] = false ∧
    isImageFile ["pics", "e"] = false := by
  refine ⟨fun p => ?_, by decide, by decide, by decide, by decide, by decide⟩
  simp [isImageFile, isSupported, kExtensions, List.contains, List.elem_eq_mem]

/-! ## C10 — dotfiles are skipped -/

/-- C10: a regular file whose name begins with a dot and contains no further
dot (such as a file literally named `.png`) has an empty extension, is
rejected by the Classifier, and is skipped by the Mover with an INFO log
line instead of being moved. -/
theorem mover_skips_dotfile (st : Sys) (f : FsPath) (cs : List Char)
    (hname : (filenameOf f).toList = '.' :: cs) (hnd : '.' ∉ cs)
    (hf : st.fs.lookup f = some EntryKind.file) :
    extensionOf (filenameOf f) = "" ∧ isImageFile f = false ∧
      moveFileToFolder st f =
        (false, st.logInfo ("Skipping non-image file: " ++ pathStr f)) := by
  have hext : extensionOf (filenameOf f) = "" := extensionOf_dotfile _ cs hname hnd
  have himg : isImageFile f = false := by
    unfold isImageFile
    rw [hext]
    decide
  exact ⟨hext, himg, moveFileToFolder_skip st f hf himg⟩

/-- C10 witness: the file `d/.png` is skipped with an INFO line. -/
theorem mover_skips_dotfile_witness :
    isImageFile ["d", ".png"] = false ∧
      moveFileToFolder dotfileSt ["d", ".png"] =
        (false, dotfileSt.logInfo ("Skipping non-image file: " ++ pathStr ["d", ".png"])) :=
  ⟨(mover_skips_dotfile dotfileSt ["d", ".png"] "png".toList (by decide) (by decide)
      (by decide)).2.1,
   (mover_skips_dotfile dotfileSt ["d", ".png"] "png".toList (by decide) (by decide)
      (by decide)).2.2⟩

/-! ## C6 — destination conflicts -/

/-- C6: when the destination folder already contains an entry with the
source's file name, the move fails with the destination-conflict outcome, the
source file is left unchanged at its original path, and the existing
destination entry is never overwritten (the filesystem is not modified at
all). -/
theorem mover_destination_conflict (st : Sys) (f : FsPath)
    (hf : st.fs.lookup f = some EntryKind.file) (himg : isImageFile f = true)
    (hD : st.fs.lookup (destFolderOf f) = some EntryKind.dir)
    (k3 : EntryKind) (hdest : st.fs.lookup (destFileOf f) = some k3) :
    moveFileToFolder st f =
      (false, (st.logError (destFileOf f) "Destination file already exists.").print
        ("Destination already exists: " ++ pathStr (destFileOf f))) ∧
    (moveFileToFolder st f).2.fs = st.fs ∧
    (moveFileToFolder st f).2.fs.lookup f = some EntryKind.file ∧
    (moveFileToFolder st f).2.fs.lookup (destFileOf f) = some k3 := by
  have h := moveFileToFolder_conflict st f hf himg hD k3 hdest
  refine ⟨h, ?_, ?_, ?_⟩ <;> rw [h] <;> simp [Sys.logError, Sys.print, hf, hdest]

/-- C6 witness: `pics/cat/cat.png` already exists, so moving `pics/cat.png`
fails and leaves the filesystem untouched. -/
theorem mover_destination_conflict_witness :
    moveFileToFolder conflictSt ["pics", "cat.png"] =
      (false, (conflictSt.logError (destFileOf ["pics", "cat.png"])
          "Destination file already exists.").print
        ("Destination already exists: " ++ pathStr (destFileOf ["pics", "cat.png"]))) :=
  (mover_destination_conflict conflictSt ["pics", "cat.png"] (by decide) (by decide)
    (by decide) EntryKind.file (by decide)).1

/-! ## C5 — enumeration failure is not logged (code bug) -/

/-- C5 (code bug): when the OS directory enumeration fails, the
`directory_iterator` constructed with an error code equals the end iterator,
so the scan body — including the in-loop `if (ec)` error handler — never
runs.  Evaluating the Scanner on an existing directory whose enumeration
fails shows: no ERROR entry is logged (the log stays empty), the console
reports "No image files found", and the result is plain failure.  The spec's
claim that the failure "logs ERROR and is reported — not silently skipped"
describes the dead in-loop handler, not the behavior. -/
theorem scanner_enumeration_failure_unlogged :
    processDirectory picsSt ["pics"] true =
      (false, picsSt.print ("No image files found in " ++ pathStr ["pics"])) ∧
    (processDirectory picsSt ["pics"] true).2.log = [] := by
  constructor <;> decide

/-! ## C3 — the scan filters unsupported files before the Mover -/

/-- C3 counterexample: the directory `d` contains exactly one immediate entry
that is a regular file, `d/a.txt`, whose extension is unsupported.  The claim
demands an INFO skip log line for it; the scan instead produces no log lines
at all (the Mover, which writes the skip line, is never invoked), while
reporting zero moves. -/
theorem scanner_no_skip_line_counterexample :
    (processDirectory unsupportedSt ["d"] false).2.log = [] ∧
    (processDirectory unsupportedSt ["d"] false).1 = false := by
  constructor <;> decide

/-- C3 (amended): in folder-scan mode only the regular files whose extension
is supported are passed to the Mover; regular files with unsupported
extensions are filtered out before the Mover, so scanning a directory that
contains only such files reports zero moves, leaves the log unchanged (no
ERROR lines, but also no INFO skip lines), and prints a "no image files
found" console message. -/
theorem scanner_filters_unsupported (st : Sys) (d : FsPath)
    (hex : st.fs.pathExists d = true) (hdir : st.fs.isDirectory d = true)
    (hall : ∀ e ∈ st.fs.childrenOf d, st.fs.isRegularFile e = true → isImageFile e = false) :
    processDirectory st d false =
      (false, st.print ("No image files found in " ++ pathStr d)) := by
  have hloop := scanEntries_skips d (st.fs.childrenOf d) st false hall
  simp [processDirectory, hex, hdir, hloop]

/-- C3 witness: the amended statement applied to the concrete directory
`d` containing only the unsupported regular file `a.txt`. -/
theorem scanner_filters_unsupported_witness :
    processDirectory unsupportedSt ["d"] false =
      (false, unsupportedSt.print ("No image files found in " ++ pathStr ["d"])) :=
  scanner_filters_unsupported unsupportedSt ["d"] (by decide) (by decide) (by decide)

/-! ## C2 — combined show-log and clear-log tokens -/

/-- C2 counterexample: invoked with the two arguments `--show-log`
`--clear-log` (one show-log token and one clear-log token), the program
executes neither log operation: the log-token branch of the Dispatcher runs
only for a single argument, so both tokens are forwarded to the Mover as
file paths.  The final log is not truncated (so clear-log never ran) and
holds two new "File does not exist." ERROR entries, and the console output
contains no "Log file:" display (so show-log never ran). -/
theorem show_clear_combo_counterexample :
    (runApplication ["--show-log", "--clear-log"] ⟨[]⟩ (some oldLog) false).2.log =
      [LogLine.entry Severity.error "old failure" (some ["x", "y.png"]),
       LogLine.runStart,
       LogLine.entry Severity.error "File does not exist." (some ["--show-log"]),
       LogLine.entry Severity.error "File does not exist." (some ["--clear-log"])] ∧
    (runApplication ["--show-log", "--clear-log"] ⟨[]⟩ (some oldLog) false).2.log ≠ [] ∧
    (runApplication ["--show-log", "--clear-log"] ⟨[]⟩ (some oldLog) false).2.out =
      ["File not found: --show-log",
       "File not found: --clear-log",
       "No image files were processed.",
       "Finished processing files. Check the log for any errors: " ++ pathStr logPath] := by
  refine ⟨by decide, by decide, by decide⟩

/-- C2 (amended): an invocation whose arguments consist of one show-log token
and one clear-log token executes neither log operation — the Dispatcher
honors those tokens only as the sole argument, so with two arguments both are
treated as ordinary file paths and passed to the Mover (each failing with a
"File does not exist." error when no such file exists). -/
theorem show_clear_combo_is_file_mode (fs : FS) (lf : Option (List LogLine)) (se : Bool)
    (s c : String)
    (_hs : s = "--show-log" ∨ s = "/showlog")
    (_hc : c = "--clear-log" ∨ c = "/clearlog")
    (hnos : fs.lookup (pathOfString s) = none)
    (hnoc : fs.lookup (pathOfString c) = none) :
    runApplication [s, c] fs lf se =
      (1, ⟨fs,
        lf.getD [] ++ [LogLine.runStart,
          LogLine.entry Severity.error "File does not exist." (some (pathOfString s)),
          LogLine.entry Severity.error "File does not exist." (some (pathOfString c))],
        ["File not found: " ++ pathStr (pathOfString s),
         "File not found: " ++ pathStr (pathOfString c),
         "No image files were processed.",
         "Finished processing files. Check the log for any errors: " ++ pathStr logPath]⟩) := by
  have h1 := moveFileToFolder_notFound (initSys fs lf) (pathOfString s) hnos
  have hfs1 : (((initSys fs lf).logError (pathOfString s) "File does not exist.").print
      ("File not found: " ++ pathStr (pathOfString s))).fs = fs := rfl
  have h2 := moveFileToFolder_notFound
    (((initSys fs lf).logError (pathOfString s) "File does not exist.").print
      ("File not found: " ++ pathStr (pathOfString s))) (pathOfString c)
    (by rw [hfs1]; exact hnoc)
  simp [initSys, Sys.logError, Sys.print, List.append_assoc] at h1 h2
  simp [runApplication, runFileMode, processFiles, filesLoop, initSys,
    Sys.logError, Sys.print, h1, h2, List.append_assoc]

/-- C2 witness: the amended statement at the concrete tokens on an empty
filesystem with no prior log file. -/
theorem show_clear_combo_is_file_mode_witness :
    runApplication ["--show-log", "--clear-log"] ⟨[]⟩ none false =
      (1, ⟨⟨[]⟩,
        [LogLine.runStart,
          LogLine.entry Severity.error "File does not exist." (some (pathOfString "--show-log")),
          LogLine.entry Severity.error "File does not exist." (some (pathOfString "--clear-log"))],
        ["File not found: " ++ pathStr (pathOfString "--show-log"),
         "File not found: " ++ pathStr (pathOfString "--clear-log"),
         "No image files were processed.",
         "Finished processing files. Check the log for any errors: " ++ pathStr logPath]⟩) :=
  show_clear_combo_is_file_mode ⟨[]⟩ none false "--show-log" "--clear-log"
    (Or.inl rfl) (Or.inl rfl) (by decide) (by decide)

/-! ## C9 — token priority in the Dispatcher -/

/-- C9: with exactly one argument equal to a show-log or clear-log token the
corresponding log command executes and the directory/file interpretation of
the argument is never reached — the equations hold for *every* filesystem,
including ones where a directory or file with that literal name exists, and
the final state keeps that filesystem untouched; with two or more arguments
the same tokens are ordinary file paths handed to explicit-file mode (the
Mover), whatever they are. -/
theorem dispatcher_token_priority :
    (∀ (fs : FS) (lf : Option (List LogLine)) (se : Bool),
      runApplication ["--show-log"] fs lf se =
        (0, (initSys fs lf).print
          ("Log file: " ++ pathStr logPath ++ "\n" ++ renderLog (initSys fs lf).log))) ∧
    (∀ (fs : FS) (lf : Option (List LogLine)) (se : Bool),
      runApplication ["/showlog"] fs lf se =
        (0, (initSys fs lf).print
          ("Log file: " ++ pathStr logPath ++ "\n" ++ renderLog (initSys fs lf).log))) ∧
    (∀ (fs : FS) (lf : Option (List LogLine)) (se : Bool),
      runApplication ["--clear-log"] fs lf se =
        (0, ({ initSys fs lf with log := [] }).print
          ("Log file cleared: " ++ pathStr logPath))) ∧
    (∀ (fs : FS) (lf : Option (List LogLine)) (se : Bool),
      runApplication ["/clearlog"] fs lf se =
        (0, ({ initSys fs lf with log := [] }).print
          ("Log file cleared: " ++ pathStr logPath))) ∧
    (∀ (fs : FS) (lf : Option (List LogLine)) (se : Bool) (a b : String) (rest : List String),
      runApplication (a :: b :: rest) fs lf se = runFileMode (initSys fs lf) (a :: b :: rest)) :=
  ⟨fun _ _ _ => rfl, fun _ _ _ => rfl, fun _ _ _ => rfl, fun _ _ _ => rfl,
   fun _ _ _ _ _ _ => rfl⟩

/-! ## C4 — clear-log then show-log across two invocations -/

/-- C4 counterexample: starting from a log file holding an old ERROR entry,
invoking clear-log and then show-log (two consecutive invocations) displays a
log that is neither empty nor absent: the show-log invocation's own `Logger`
constructor has already appended a run-start marker to the file it then
reads, so the displayed contents are one marker line, a non-empty string. -/
theorem clear_then_show_counterexample :
    (runApplication ["--show-log"]
        (step ["--clear-log"] ⟨⟨[]⟩, some oldLog⟩ false).2.fs
        (step ["--clear-log"] ⟨⟨[]⟩, some oldLog⟩ false).2.logFile false).2.out =
      ["Log file: " ++ pathStr logPath ++ "\n" ++ renderLog [LogLine.runStart]] ∧
    renderLog [LogLine.runStart] ≠ "" ∧
    (runApplication ["--show-log"]
        (step ["--clear-log"] ⟨⟨[]⟩, some oldLog⟩ false).2.fs
        (step ["--clear-log"] ⟨⟨[]⟩, some oldLog⟩ false).2.logFile false).1 = 0 := by
  refine ⟨by decide, by decide, by decide⟩

/-- C4 (amended): a clear-log invocation immediately followed by a show-log
invocation displays a log holding no INFO or ERROR entries — but not an
empty or absent one: it holds exactly the run-start marker line written by
the `Logger` on construction of the show-log invocation itself.  This holds
from any starting filesystem and any prior log file. -/
theorem clear_then_show_marker_only (fs : FS) (lf : Option (List LogLine)) (se1 se2 : Bool) :
    runApplication ["--show-log"]
        (step ["--clear-log"] ⟨fs, lf⟩ se1).2.fs
        (step ["--clear-log"] ⟨fs, lf⟩ se1).2.logFile se2 =
      (0, Sys.print ⟨fs, [LogLine.runStart], []⟩
        ("Log file: " ++ pathStr logPath ++ "\n" ++ renderLog [LogLine.runStart])) :=
  rfl

/-! ## C7 — failures are isolated; exit status is the batch disjunction -/

/-- A folder `imgs` holding one supported image `dog.jpg`. -/
def imgsFS : FS :=
  ⟨[(["imgs"], EntryKind.dir), (["imgs", "dog.jpg"], EntryKind.file)]⟩

/-- C7: in both batch modes a failure on one item never aborts the remaining
items and no item is retried, and the exit status is `0` exactly when some
item succeeded.  In order: (1) the explicit-file loop composes over any split
of the list — whatever happened in the first part, the rest is still
processed; (2) every listed file yields exactly one Mover outcome (processed
once, never retried); (3) `processFiles` succeeds exactly when some per-item
outcome succeeded, reaching the state of moving every file in order; (4) the
scan loop never takes its early-return branch on a per-file failure and
composes over any split of the enumeration; (5) explicit-file invocations
exit `0` iff `processFiles` reports a success, else `1`; (6) folder-scan
invocations exit `0` iff `processDirectory` reports a success, else `1`. -/
theorem batch_failures_isolated :
    (∀ (st : Sys) (any : Bool) (files1 files2 : List FsPath),
      filesLoop st any (files1 ++ files2) =
        filesLoop (filesLoop st any files1).2 (filesLoop st any files1).1 files2) ∧
    (∀ (st : Sys) (files : List FsPath), (moveOutcomes st files).1.length = files.length) ∧
    (∀ (st : Sys) (files : List FsPath),
      (processFiles st files).1 = (moveOutcomes st files).1.any id ∧
      (processFiles st files).2.fs = (moveOutcomes st files).2.fs) ∧
    (∀ (dp : FsPath) (st : Sys) (any : Bool) (es1 es2 : List FsPath),
      (scanEntries dp false st any es1).2.2 = false ∧
      scanEntries dp false st any (es1 ++ es2) =
        scanEntries dp false (scanEntries dp false st any es1).2.1
          (scanEntries dp false st any es1).1 es2) ∧
    (∀ (a b : String) (rest : List String) (fs : FS) (lf : Option (List LogLine)) (se : Bool),
      (runApplication (a :: b :: rest) fs lf se).1 =
        if (processFiles (initSys fs lf) ((a :: b :: rest).map pathOfString)).1 then 0 else 1) ∧
    (∀ (a : String) (fs : FS) (lf : Option (List LogLine)) (se : Bool),
      ¬ (a = "--show-log" ∨ a = "/showlog") →
      ¬ (a = "--clear-log" ∨ a = "/clearlog") →
      (fs.pathExists (pathOfString a) && fs.isDirectory (pathOfString a)) = true →
      (runApplication [a] fs lf se).1 =
        if (processDirectory (initSys fs lf) (pathOfString a) se).1 then 0 else 1) := by
  refine ⟨fun st any files1 files2 => filesLoop_append files1 files2 st any,
    fun st files => moveOutcomes_length files st,
    fun st files => ?_,
    fun dp st any es1 es2 =>
      ⟨scanEntries_no_early dp es1 st any, scanEntries_append dp es1 es2 st any⟩,
    fun a b rest fs lf se => ?_,
    fun a fs lf se h1 h2 h3 => ?_⟩
  · have h := filesLoop_eq_outcomes files st false
    cases hany : (moveOutcomes st files).1.any id <;>
      simp [processFiles, h, hany, Sys.print]
  · rcases hp : processFiles (initSys fs lf) ((a :: b :: rest).map pathOfString) with ⟨succ, st2⟩
    simp only [List.map_cons] at hp
    simp [runApplication, runFileMode, hp]
  · rcases hp : processDirectory (initSys fs lf) (pathOfString a) se with ⟨succ, st2⟩
    have h3' : ((initSys fs lf).fs.pathExists (pathOfString a) &&
        (initSys fs lf).fs.isDirectory (pathOfString a)) = true := h3
    simp [runApplication, h1, h2, h3', hp]

/-- C7 witness: the folder-scan exit-status equation at the concrete folder
`imgs` (not a log token, exists, and is a directory). -/
theorem batch_failures_isolated_witness :
    (runApplication ["imgs"] imgsFS none false).1 =
      if (processDirectory (initSys imgsFS none) (pathOfString "imgs") false).1 then 0 else 1 :=
  batch_failures_isolated.2.2.2.2.2 "imgs" imgsFS none false
    (by decide) (by decide) (by decide)

/-! ## C1 — the move invariant -/

/-- C1: the Mover moves a file iff (a) the path is an existing regular file,
(b) its extension is in the fixed extension set, (c) the sibling destination
folder already exists as a directory or can be created, and (d) no entry
already occupies the destination path; and on every failing outcome the
source file remains at its original location and nothing is created at the
destination beyond possibly-created (empty) folder segments: the only paths
whose entry changes were previously absent and are now directories on the
destination-folder chain. -/
theorem mover_moves_iff_invariant (st : Sys) (f : FsPath) :
    ((moveFileToFolder st f).1 = true ↔
      (st.fs.lookup f = some EntryKind.file ∧ isImageFile f = true ∧
        (st.fs.lookup (destFolderOf f) = some EntryKind.dir ∨
          (st.fs.lookup (destFolderOf f) = none ∧
            (st.fs.createDirectories (destFolderOf f)).1 = true)) ∧
        st.fs.lookup (destFileOf f) = none)) ∧
    ((moveFileToFolder st f).1 = false →
      ((moveFileToFolder st f).2.fs.lookup f = st.fs.lookup f ∧
        ∀ p : FsPath, (moveFileToFolder st f).2.fs.lookup p ≠ st.fs.lookup p →
          st.fs.lookup p = none ∧
            (moveFileToFolder st f).2.fs.lookup p = some EntryKind.dir ∧
            p ∈ ancestorsOf (destFolderOf f))) := by
  cases hf : st.fs.lookup f with
  | none =>
    rw [moveFileToFolder_notFound st f hf]
    exact ⟨by simp [hf], fun _ => ⟨hf, fun p hp => absurd rfl hp⟩⟩
  | some k =>
    cases k with
    | dir =>
      rw [moveFileToFolder_notFile st f hf]
      exact ⟨by simp [hf], fun _ => ⟨hf, fun p hp => absurd rfl hp⟩⟩
    | file =>
      cases himg : isImageFile f with
      | false =>
        rw [moveFileToFolder_skip st f hf himg]
        exact ⟨by simp [hf, himg], fun _ => ⟨hf, fun p hp => absurd rfl hp⟩⟩
      | true =>
        cases hD : st.fs.lookup (destFolderOf f) with
        | some k2 =>
          cases k2 with
          | file =>
            rw [moveFileToFolder_destIsFile st f hf himg hD]
            exact ⟨by simp [hf, himg, hD], fun _ => ⟨hf, fun p hp => absurd rfl hp⟩⟩
          | dir =>
            cases hdest : st.fs.lookup (destFileOf f) with
            | some k3 =>
              rw [moveFileToFolder_conflict st f hf himg hD k3 hdest]
              exact ⟨by simp [hf, himg, hD, hdest],
                fun _ => ⟨hf, fun p hp => absurd rfl hp⟩⟩
            | none =>
              rw [moveFileToFolder_success_dirExists st f hf himg hD hdest]
              exact ⟨by simp [hf, himg, hD, hdest], by simp⟩
        | none =>
          rcases hcd : st.fs.createDirectories (destFolderOf f) with ⟨b2, fs2⟩
          have hsnd : (createDirsAux st.fs (ancestorsOf (destFolderOf f))).2 = fs2 :=
            congrArg Prod.snd hcd
          cases b2 with
          | false =>
            rw [moveFileToFolder_createFail st f fs2 hf himg hD hcd]
            refine ⟨by simp [hf, himg, hD, hcd], fun _ => ⟨?_, ?_⟩⟩
            · show fs2.lookup f = some EntryKind.file
              rw [← hsnd]
              exact createDirsAux_preserve _ st.fs f EntryKind.file hf
            · intro p hp
              have hp' : fs2.lookup p ≠ st.fs.lookup p := hp
              rcases createDirsAux_changes (ancestorsOf (destFolderOf f)) st.fs p with
                h | ⟨h1, h2, h3⟩
              · rw [hsnd] at h; exact absurd h hp'
              · rw [hsnd] at h2; exact ⟨h1, h2, h3⟩
          | true =>
            cases hdest : st.fs.lookup (destFileOf f) with
            | some k3 =>
              rw [moveFileToFolder_conflict_created st f fs2 hf himg hD hcd k3 hdest]
              refine ⟨by simp [hf, himg, hD, hcd, hdest], fun _ => ⟨?_, ?_⟩⟩
              · show fs2.lookup f = some EntryKind.file
                rw [← hsnd]
                exact createDirsAux_preserve _ st.fs f EntryKind.file hf
              · intro p hp
                have hp' : fs2.lookup p ≠ st.fs.lookup p := hp
                rcases createDirsAux_changes (ancestorsOf (destFolderOf f)) st.fs p with
                  h | ⟨h1, h2, h3⟩
                · rw [hsnd] at h; exact absurd h hp'
                · rw [hsnd] at h2; exact ⟨h1, h2, h3⟩
            | none =>
              rw [moveFileToFolder_success_created st f fs2 hf himg hD hcd hdest]
              exact ⟨by simp [hf, himg, hD, hcd, hdest], by simp⟩

/-- C1 witness: moving `pics/cat.png` with no pre-existing `pics/cat`
satisfies (a)–(d) and succeeds. -/
theorem mover_moves_iff_invariant_witness :
    (moveFileToFolder picsSt ["pics", "cat.png"]).1 = true :=
  (mover_moves_iff_invariant picsSt ["pics", "cat.png"]).1.mpr (by decide)

end PushToFolders
